import Mathlib

/-!
Verification of the WebPlatform browser adapter
(src/src/vector/platform/WebPlatform.js).

The adapter is shallowly embedded: its mutable instance fields become an
explicit `PlatformState`, browser side effects (dispatching host actions,
calling the favicon badge renderer, issuing an HTTP request, logging)
become explicit values returned by the embedded operations, and the
asynchronous fetch is embedded by passing its outcome
(`Except RejectReason String`) as an argument.
-/

namespace WebPlatform

/-- Host actions emitted through the dispatcher (`dis.dispatch`). -/
inductive Action where
  | new_version (currentVersion newVersion : String)
  | view_room (room_id : String)
deriving DecidableEq, Repr

/-- Mutable instance state of the adapter: `runningVersion` (initialised to
`null`), and the two badge fields `notificationCount` / `errorDidOccur`
inherited from the base platform. -/
structure PlatformState where
  runningVersion : Option String
  notificationCount : Nat
  errorDidOccur : Bool
deriving DecidableEq, Repr

/-- Value shown on the favicon badge: either a numeric count or a glyph
string (JS passes either a number or a string to `favicon.badge`). -/
inductive BadgeValue where
  | count (n : Nat)
  | glyph (s : String)
deriving DecidableEq, Repr

/-- One call to `this.favicon.badge` with the value to show and the
background color option. -/
structure BadgeCall where
  notif : BadgeValue
  bgColor : String
deriving DecidableEq, Repr

/-- JS `notif || "×"` where `notif` is the numeric count: `0` is falsy, so a
zero count is replaced by the glyph. -/
def jsOrGlyph (n : Nat) (g : String) : BadgeValue :=
  if n = 0 then BadgeValue.glyph g else BadgeValue.count n

/-- The badge call computed by `_updateFavicon` from the current state:
`bgColor` starts as "#d00" and `notif` as the count; when `errorDidOccur`
the count is replaced by "×" if zero and the color becomes "#f00". -/
def updateFaviconCall (notificationCount : Nat) (errorDidOccur : Bool) : BadgeCall :=
  let bgColor := "#d00"
  let notif := notificationCount
  if errorDidOccur then
    ⟨jsOrGlyph notif "×", "#f00"⟩
  else
    ⟨BadgeValue.count notif, bgColor⟩

/-- Behaviour of the external badge renderer `favicon.badge`: it either
returns normally or throws (favico.js throws once its internal queue
holds more than 100 changes). -/
def Renderer : Type := BadgeCall → Except String Unit

/-- The body of `_updateFavicon`: computes the badge call, invokes the
renderer inside a try block, and on a throw logs a warning
(`console.warn`) instead of propagating. Returns whether a warning was
logged; the function is total, so no exception escapes. -/
def updateFavicon (renderer : Renderer) (notificationCount : Nat)
    (errorDidOccur : Bool) : Bool :=
  match renderer (updateFaviconCall notificationCount errorDidOccur) with
  | Except.ok _ => false
  | Except.error _ => true

/-- Modelled from the spec: `VectorBasePlatform.setNotificationCount` (the
base class is not under src/) stores the given count in
`notificationCount`. -/
def super_setNotificationCount (st : PlatformState) (count : Nat) : PlatformState :=
  { st with notificationCount := count }

/-- Modelled from the spec: `VectorBasePlatform.setErrorStatus` (the base
class is not under src/) stores the given flag in `errorDidOccur`. -/
def super_setErrorStatus (st : PlatformState) (errorDidOccur : Bool) : PlatformState :=
  { st with errorDidOccur := errorDidOccur }

/-- Observable outcome of a setter call: the resulting state, how many
times the render step `_updateFavicon` was invoked, and whether a
renderer throw was caught and logged as a warning. -/
structure SetterResult where
  state : PlatformState
  renderCalls : Nat
  warned : Bool
deriving DecidableEq, Repr

/-- `setNotificationCount(count)`: returns immediately if the stored count
strictly equals the argument; otherwise writes the state via the base
class and then invokes `_updateFavicon` once. -/
def setNotificationCount (st : PlatformState) (count : Nat)
    (renderer : Renderer) : SetterResult :=
  if st.notificationCount = count then
    ⟨st, 0, false⟩
  else
    let st' := super_setNotificationCount st count
    ⟨st', 1, updateFavicon renderer st'.notificationCount st'.errorDidOccur⟩

/-- `setErrorStatus(errorDidOccur)`: returns immediately if the stored flag
strictly equals the argument; otherwise writes the state via the base
class and then invokes `_updateFavicon` once. -/
def setErrorStatus (st : PlatformState) (errorDidOccur : Bool)
    (renderer : Renderer) : SetterResult :=
  if st.errorDidOccur = errorDidOccur then
    ⟨st, 0, false⟩
  else
    let st' := super_setErrorStatus st errorDidOccur
    ⟨st', 1, updateFavicon renderer st'.notificationCount st'.errorDidOccur⟩

/-- Environment seen by `screenCaptureErrorString`: whether the global
`window` object exists, and the transport scheme of the page
(`window.location.protocol`), which the code can only read through the
window object. -/
structure ScreenEnv where
  hasWindow : Bool
  protocol : String
deriving DecidableEq, Repr

/-- The fixed message returned by `screenCaptureErrorString`. -/
def screenCaptureErrorMessage : String :=
  "You need to be using HTTPS to place a screen-sharing call."

/-- `screenCaptureErrorString()`: returns the fixed message when
`!global.window || global.window.location.protocol !== "https:"`, and
`null` otherwise. -/
def screenCaptureErrorString (env : ScreenEnv) : Option String :=
  if !env.hasWindow || env.protocol ≠ "https:" then
    some screenCaptureErrorMessage
  else
    none

/-- The HTTP request issued by `_getVersion` through `browser-request`:
method, url, and the `cachebuster` query-string parameter. -/
structure HttpRequest where
  method : String
  url : String
  cachebuster : Nat
deriving DecidableEq, Repr

/-- The value `_getVersion` rejects with: the transport error when the
callback's `err` is non-null, otherwise a record holding the response
status, which the code substitutes for the null `err` before rejecting. -/
inductive RejectReason where
  | transport (e : String)
  | status (code : Nat)
deriving DecidableEq, Repr

/-- The request built by `_getVersion`: a GET to the fixed path "version"
with `cachebuster` set to `Date.now()` (the current epoch-millisecond
timestamp, passed in explicitly). -/
def getVersionRequest (now : Nat) : HttpRequest :=
  ⟨"GET", "version", now⟩

/-- The callback body of `_getVersion`, as a function of the callback
arguments `err` (null or a transport error), `response.status` and
`body`: rejects when `err` is truthy or the status is outside 2xx
(substituting a status record when `err` is null), otherwise resolves
with `body.trim()`. -/
def getVersionResult (err : Option String) (status : Nat) (body : String) :
    Except RejectReason String :=
  if err.isSome ∨ status < 200 ∨ 300 ≤ status then
    match err with
    | some e => Except.error (RejectReason.transport e)
    | none => Except.error (RejectReason.status status)
  else
    Except.ok body.trim

/-- Result of a `getAppVersion` call: the value its promise settles with,
whether a fresh fetch was performed, and the adapter state afterwards. -/
structure GetAppVersionResult where
  result : Except RejectReason String
  fetched : Bool
  state : PlatformState
deriving Repr

/-- `getAppVersion()`: if `runningVersion !== null` it resolves with the
stored value and performs no fetch; otherwise it performs one fresh
`_getVersion()` fetch (whose outcome is the `fetch` argument) and returns
its result. It never writes the state. -/
def getAppVersion (st : PlatformState) (fetch : Except RejectReason String) :
    GetAppVersionResult :=
  match st.runningVersion with
  | some rv => ⟨Except.ok rv, false, st⟩
  | none => ⟨fetch, true, st⟩

/-- Result of one `pollForUpdate` call: the adapter state afterwards, the
actions dispatched to the host, and whether a fetch failure was logged
via `console.error`. -/
structure PollResult where
  state : PlatformState
  dispatched : List Action
  logged : Bool
deriving DecidableEq, Repr

/-- `pollForUpdate()`: on a rejected fetch, logs the error and does nothing
else; on a resolved fetch with value `ver`: if `runningVersion == null`
stores `ver` as `runningVersion`, else if `runningVersion != ver`
dispatches a `new_version` action carrying the stored and the fetched
identifiers, else does nothing. The function never rethrows. -/
def pollForUpdate (st : PlatformState) (fetch : Except RejectReason String) :
    PollResult :=
  match fetch with
  | Except.error _ => ⟨st, [], true⟩
  | Except.ok ver =>
    match st.runningVersion with
    | none => ⟨{ st with runningVersion := some ver }, [], false⟩
    | some rv =>
      if rv ≠ ver then ⟨st, [Action.new_version rv ver], false⟩
      else ⟨st, [], false⟩

/-- A sequence of `pollForUpdate` calls whose fetches all resolve, with the
listed version identifiers in order: returns the final state and the list
of actions dispatched by each poll. -/
def runPolls (st : PlatformState) (vs : List String) :
    PlatformState × List (List Action) :=
  match vs with
  | [] => (st, [])
  | v :: rest =>
    let r := pollForUpdate st (Except.ok v)
    let p := runPolls r.state rest
    (p.1, r.dispatched :: p.2)

/-- A room object; `displayNotification` reads only its `roomId`. -/
structure Room where
  roomId : String
deriving DecidableEq, Repr

/-- Options passed to the `Notification` constructor by
`displayNotification`. -/
structure NotificationOptions where
  body : String
  icon : String
  tag : String
  silent : Bool
deriving DecidableEq, Repr

/-- Side effects performed by the notification's click handler and by the
auto-close timer. -/
inductive NotifEffect where
  | dispatch (a : Action)
  | focusWindow
  | closeNotification
deriving DecidableEq, Repr

/-- Observable structure built by `displayNotification`: the constructor
arguments, the effects the installed `onclick` handler performs in order,
and the delay of the `setTimeout` that closes the notification. -/
structure DisplayedNotification where
  title : String
  options : NotificationOptions
  onclick : List NotifEffect
  autoCloseMs : Nat
deriving DecidableEq, Repr

/-- `displayNotification(title, msg, avatarUrl, room)`: creates a silent
notification tagged "vector"; its click handler dispatches a `view_room`
action for `room.roomId`, focuses the window and closes the notification;
a timer closes the notification after 5 * 1000 ms. -/
def displayNotification (title msg avatarUrl : String) (room : Room) :
    DisplayedNotification :=
  ⟨title, ⟨msg, avatarUrl, "vector", true⟩,
   [NotifEffect.dispatch (Action.view_room room.roomId), NotifEffect.focusWindow,
    NotifEffect.closeNotification],
   5 * 1000⟩

end WebPlatform

namespace WebPlatform

/-- C3: for every count n and error flag e, the badge render step shows,
when e is true, the glyph "×" if n is zero and the count n otherwise on
the error background color "#f00", and when e is false the raw count n on
the neutral background color "#d00". -/
theorem updateFavicon_render_rule (n : Nat) :
    updateFaviconCall n true =
      ⟨if n = 0 then BadgeValue.glyph "×" else BadgeValue.count n, "#f00"⟩ ∧
    updateFaviconCall n false = ⟨BadgeValue.count n, "#d00"⟩ := by
  constructor
  · simp [updateFaviconCall, jsOrGlyph]
  · simp [updateFaviconCall]

/-- C10: when the global window object is absent,
`screenCaptureErrorString` returns the fixed error string no matter what
the transport scheme is, while with a window present and an "https:"
scheme it returns null — so the window's existence is a second input to
the result. -/
theorem screenCapture_window_absent (p : String) :
    screenCaptureErrorString ⟨false, p⟩ = some screenCaptureErrorMessage ∧
    screenCaptureErrorString ⟨true, "https:"⟩ = none := by
  constructor
  · simp [screenCaptureErrorString]
  · simp [screenCaptureErrorString]

/-- C7 counterexample: two environments with the same secure transport
scheme "https:" differ in the result — the one without a window object
returns the fixed error string even though the transport is secure, so
the result is not purely a function of the transport scheme. -/
theorem screenCapture_not_scheme_only :
    screenCaptureErrorString ⟨false, "https:"⟩ = some screenCaptureErrorMessage ∧
    screenCaptureErrorString ⟨true, "https:"⟩ = none := by
  constructor
  · simp [screenCaptureErrorString]
  · simp [screenCaptureErrorString]

/-- Helper: once `runningVersion` holds some version v, a run of successful
polls leaves the state untouched and each poll of w dispatches a
`new_version v w` action exactly when w differs from v. -/
theorem runPolls_stable (vs : List String) :
    ∀ (st : PlatformState) (v : String), st.runningVersion = some v →
    runPolls st vs =
      (st, vs.map fun w =>
        if w = v then ([] : List Action) else [Action.new_version v w]) := by
  induction vs with
  | nil =>
    intro st v h
    simp [runPolls]
  | cons w rest ih =>
    intro st v h
    obtain ⟨rvOpt, nc, ed⟩ := st
    simp only [PlatformState.runningVersion] at h
    subst h
    by_cases hw : w = v
    · subst hw
      simp [runPolls, pollForUpdate, ih ⟨some w, nc, ed⟩ w rfl]
    · have hvw : v ≠ w := fun hvw => hw hvw.symm
      simp [runPolls, pollForUpdate, hvw, hw, ih ⟨some v, nc, ed⟩ v rfl]

/-- C1: starting from an unset `runningVersion`, the first successful poll
stores the fetched identifier and dispatches nothing, and each later
successful poll leaves the state unchanged and dispatches exactly one
`new_version` action carrying the stored (old) and fetched (new)
identifiers when they differ — re-signalling on every divergent poll —
and nothing when they are equal. -/
theorem pollForUpdate_sequence (st : PlatformState) (v : String) (vs : List String) :
    runPolls { st with runningVersion := none } (v :: vs) =
      ({ st with runningVersion := some v },
       [] :: vs.map fun w =>
         if w = v then ([] : List Action) else [Action.new_version v w]) ∧
    (∀ (s : PlatformState) (rv w : String),
      pollForUpdate { s with runningVersion := some rv } (Except.ok w) =
        ⟨{ s with runningVersion := some rv },
         if w = rv then [] else [Action.new_version rv w], false⟩) := by
  constructor
  · have hfirst :
        pollForUpdate { st with runningVersion := none } (Except.ok v) =
          ⟨{ st with runningVersion := some v }, [], false⟩ := rfl
    simp [runPolls, hfirst,
      runPolls_stable vs { st with runningVersion := some v } v rfl]
  · intro s rv w
    by_cases hw : w = rv
    · subst hw
      simp [pollForUpdate]
    · have hrw : rv ≠ w := fun h => hw h.symm
      simp [pollForUpdate, hrw, hw]

/-- C4: `getAppVersion` returns the stored `runningVersion` without any
fetch when one is known, and otherwise performs exactly one fresh fetch
and returns its result; in both cases the adapter state is unchanged. -/
theorem getAppVersion_spec (st : PlatformState) (rv : String)
    (fetch : Except RejectReason String) :
    getAppVersion { st with runningVersion := some rv } fetch =
      ⟨Except.ok rv, false, { st with runningVersion := some rv }⟩ ∧
    getAppVersion { st with runningVersion := none } fetch =
      ⟨fetch, true, { st with runningVersion := none }⟩ := by
  constructor <;> rfl

/-- C5: the version fetch issues a GET to the fixed "version" path with the
cache-defeating `cachebuster` parameter set to the current timestamp, and
it resolves with the trimmed response body exactly when no transport
error occurred and the status is in the 2xx range; otherwise it rejects. -/
theorem getVersion_spec (now status : Nat) (err : Option String) (body : String) :
    getVersionRequest now = ⟨"GET", "version", now⟩ ∧
    (getVersionResult err status body = Except.ok body.trim ↔
      err = none ∧ 200 ≤ status ∧ status < 300) ∧
    ((∃ e, getVersionResult err status body = Except.error e) ↔
      ¬(err = none ∧ 200 ≤ status ∧ status < 300)) := by
  have hiff : (err.isSome ∨ status < 200 ∨ 300 ≤ status) ↔
      ¬(err = none ∧ 200 ≤ status ∧ status < 300) := by
    cases err with
    | none => simp; omega
    | some e => simp
  refine ⟨rfl, ?_, ?_⟩
  · constructor
    · intro hok
      by_contra hneg
      have hc : err.isSome ∨ status < 200 ∨ 300 ≤ status := hiff.mpr hneg
      unfold getVersionResult at hok
      rw [if_pos hc] at hok
      cases err <;> exact Except.noConfusion hok
    · intro hcond
      have hc : ¬(err.isSome ∨ status < 200 ∨ 300 ≤ status) :=
        fun h => (hiff.mp h) hcond
      unfold getVersionResult
      rw [if_neg hc]
  · constructor
    · rintro ⟨e, he⟩ hcond
      have hc : ¬(err.isSome ∨ status < 200 ∨ 300 ≤ status) :=
        fun h => (hiff.mp h) hcond
      unfold getVersionResult at he
      rw [if_neg hc] at he
      exact Except.noConfusion he
    · intro hneg
      have hc : err.isSome ∨ status < 200 ∨ 300 ≤ status := hiff.mpr hneg
      unfold getVersionResult
      rw [if_pos hc]
      cases err with
      | none => exact ⟨RejectReason.status status, rfl⟩
      | some e => exact ⟨RejectReason.transport e, rfl⟩

/-- C6: a failing fetch is handled asymmetrically: `pollForUpdate` logs it,
dispatches nothing, leaves the state unchanged and propagates nothing,
while `getAppVersion` with no cached version rejects with the very same
error (also leaving the state unchanged). -/
theorem fetch_failure_asymmetry (st : PlatformState) (e : RejectReason) :
    pollForUpdate st (Except.error e) = ⟨st, [], true⟩ ∧
    getAppVersion { st with runningVersion := none } (Except.error e) =
      ⟨Except.error e, true, { st with runningVersion := none }⟩ := by
  constructor <;> rfl

/-- C7 amended: when the window object is present, the result is the fixed
error string exactly when the protocol is not "https:" and null when it
is; when the window object is absent the fixed string is returned
regardless of the scheme, so the result is a function of the pair
(window presence, protocol), not of the protocol alone. -/
theorem screenCapture_amended (p : String) :
    screenCaptureErrorString ⟨true, p⟩ =
      (if p = "https:" then none else some screenCaptureErrorMessage) ∧
    screenCaptureErrorString ⟨false, p⟩ = some screenCaptureErrorMessage := by
  constructor
  · by_cases h : p = "https:" <;> simp [screenCaptureErrorString, h]
  · simp [screenCaptureErrorString]

/-- C2: a setter called with the value already stored performs no state
write and never invokes the render step; a setter called with a different
value stores it and invokes the render step exactly once; consequently a
second call in a row with the same value never renders. Holds for both
`setNotificationCount` and `setErrorStatus`. -/
theorem setter_idempotence (st : PlatformState) (n : Nat) (b : Bool) (r : Renderer) :
    setNotificationCount { st with notificationCount := n } n r =
      ⟨{ st with notificationCount := n }, 0, false⟩ ∧
    (setNotificationCount st n r).state = { st with notificationCount := n } ∧
    (setNotificationCount st n r).renderCalls =
      (if st.notificationCount = n then 0 else 1) ∧
    (setNotificationCount (setNotificationCount st n r).state n r).renderCalls = 0 ∧
    setErrorStatus { st with errorDidOccur := b } b r =
      ⟨{ st with errorDidOccur := b }, 0, false⟩ ∧
    (setErrorStatus st b r).state = { st with errorDidOccur := b } ∧
    (setErrorStatus st b r).renderCalls =
      (if st.errorDidOccur = b then 0 else 1) ∧
    (setErrorStatus (setErrorStatus st b r).state b r).renderCalls = 0 := by
  obtain ⟨rv, nc, ed⟩ := st
  by_cases hn : nc = n <;>
    by_cases hb : ed = b <;>
      refine ⟨?_, ?_, ?_, ?_, ?_, ?_, ?_, ?_⟩ <;>
        simp [setNotificationCount, setErrorStatus, super_setNotificationCount,
          super_setErrorStatus, hn, hb]

/-- C8: the click handler installed by `displayNotification` dispatches the
action record with action "view_room" and the room's id, brings the
window to the foreground, and closes the notification, in that order; and
independently a timer closes the notification 5000 ms after creation. -/
theorem displayNotification_click (title msg avatarUrl : String) (room : Room) :
    (displayNotification title msg avatarUrl room).onclick =
      [NotifEffect.dispatch (Action.view_room room.roomId), NotifEffect.focusWindow,
       NotifEffect.closeNotification] ∧
    (displayNotification title msg avatarUrl room).autoCloseMs = 5000 :=
  ⟨rfl, rfl⟩

/-- C9: when the badge renderer throws during the render step of either
setter, the exception is caught and logged as a warning rather than
propagated — the setter still returns an ordinary result — and the new
value is recorded in the state even though the visual update was
dropped. -/
theorem render_failure_nonfatal (st : PlatformState) (n : Nat) (b : Bool)
    (r : Renderer) (e₁ e₂ : String)
    (hn : st.notificationCount ≠ n)
    (hb : st.errorDidOccur ≠ b)
    (ht₁ : r (updateFaviconCall n st.errorDidOccur) = Except.error e₁)
    (ht₂ : r (updateFaviconCall st.notificationCount b) = Except.error e₂) :
    setNotificationCount st n r = ⟨{ st with notificationCount := n }, 1, true⟩ ∧
    setErrorStatus st b r = ⟨{ st with errorDidOccur := b }, 1, true⟩ := by
  constructor
  · simp [setNotificationCount, hn, super_setNotificationCount, updateFavicon, ht₁]
  · simp [setErrorStatus, hb, super_setErrorStatus, updateFavicon, ht₂]

/-- Witness for C9: in the concrete state with count 0 and no error, with a
renderer that always throws "queue overflow", setting the count to 3
records 3 and logs a warning, and setting the error flag records it and
logs a warning; neither call throws. -/
theorem render_failure_nonfatal_witness :
    setNotificationCount ⟨none, 0, false⟩ 3 (fun _ => Except.error "queue overflow") =
      ⟨⟨none, 3, false⟩, 1, true⟩ ∧
    setErrorStatus ⟨none, 0, false⟩ true (fun _ => Except.error "queue overflow") =
      ⟨⟨none, 0, true⟩, 1, true⟩ :=
  render_failure_nonfatal ⟨none, 0, false⟩ 3 true
    (fun _ => Except.error "queue overflow") "queue overflow" "queue overflow"
    (by decide) (by decide) rfl rfl

end WebPlatform
